import Mathlib

/-!
Shallow embedding of `shiny/driver/x11driver/screen.go` (the X11 connection
coordinator of golang.org/x/exp's shiny package, as mirrored in this
repository).

Pure logic (size validation, pict-format matching, byte packing) is embedded
directly.  Fallible external calls (id allocation, shared-memory open, atom
interning, the pict-format query) are modelled by an environment record that
fixes each call's outcome, and each operation additionally returns the list
of side-effecting requests it issued, in order.  The mutable tables guarded
by `s.mu` (`buffers`, `uploads`, `windows`) are explicit fields of a state
record; channel closes and channel sends are modelled by a per-channel close
counter and a delivery log.  Go `int`/`int64` arithmetic is modelled with
`Int`; the only products formed (`4*w*h` with both sides already bounded by
32767 by short-circuit evaluation, and atom bytes) stay far below 2^63, so
no wrap-around is reachable and plain `Int` is exact.
-/

namespace X11Driver

/-- Finite map modelled as a function into `Option`, like a Go map. -/
def mapInsert {α : Type} (m : Nat → Option α) (k : Nat) (v : α) : Nat → Option α :=
  fun k' => if k' = k then some v else m k'

/-- Go `delete(m, k)`. -/
def mapErase {α : Type} (m : Nat → Option α) (k : Nat) : Nat → Option α :=
  fun k' => if k' = k then none else m k'

/-- Whether an `Except` is the error case. -/
def isErr {ε α : Type} : Except ε α → Bool
  | .error _ => true
  | .ok _ => false

/-! ## Format negotiation (`findPictformat`, `findVisual`) -/

/-- `render.Directformat`: channel shifts and masks. -/
structure Directformat where
  redShift : Nat
  redMask : Nat
  greenShift : Nat
  greenMask : Nat
  blueShift : Nat
  blueMask : Nat
  alphaShift : Nat
  alphaMask : Nat
deriving DecidableEq, Repr

/-- `render.PictType*`: indexed or direct color. -/
inductive PictType where
  | indexed
  | direct
deriving DecidableEq, Repr

/-- `render.Pictforminfo`: one server-advertised pixel format. -/
structure Pictforminfo where
  id : Nat
  type : PictType
  depth : Nat
  direct : Directformat
deriving DecidableEq, Repr

/-- The `want` value built at the top of `findPictformat`: BGRA layout with
8-bit fields at shifts 16/8/0/24; for depth 24 the alpha shift and mask are
zeroed out. -/
def wantFormat (depth : Nat) : Directformat :=
  let want : Directformat :=
    { redShift := 16, redMask := 0xff
      greenShift := 8, greenMask := 0xff
      blueShift := 0, blueMask := 0xff
      alphaShift := 24, alphaMask := 0xff }
  if depth = 24 then { want with alphaShift := 0, alphaMask := 0x00 } else want

/-- `findPictformat`: first advertised format that is direct, of the wanted
depth, and has exactly the wanted channel layout. -/
def findPictformat : List Pictforminfo → Nat → Except String Nat
  | [], depth => .error ("x11driver: no matching Pictformat for depth " ++ toString depth)
  | f :: fs, depth =>
    if f.type = .direct ∧ f.depth = depth ∧ f.direct = wantFormat depth then
      .ok f.id
    else
      findPictformat fs depth

/-- One visual of `xproto.VisualInfo`. -/
structure VisualInfo where
  visualId : Nat
  redMask : Nat
  greenMask : Nat
  blueMask : Nat
deriving DecidableEq, Repr

/-- One entry of `xsi.AllowedDepths`. -/
structure DepthInfo where
  depth : Nat
  visuals : List VisualInfo
deriving DecidableEq, Repr

/-- Inner loop of `findVisual`: first visual with masks 0xff0000/0xff00/0xff. -/
def findVisualIn : List VisualInfo → Except String Nat
  | [] => .error "x11driver: no matching Visualid"
  | v :: vs =>
    if v.redMask = 0xff0000 ∧ v.greenMask = 0xff00 ∧ v.blueMask = 0xff then
      .ok v.visualId
    else
      findVisualIn vs

/-- `findVisual`: scan the allowed depths for the given depth, then scan its
visuals; the Go double loop `continue`s to later same-depth entries when an
entry's visuals have no match. -/
def findVisual : List DepthInfo → Nat → Except String Nat
  | [], _ => .error "x11driver: no matching Visualid"
  | d :: ds, depth =>
    if d.depth = depth then
      match findVisualIn d.visuals with
      | .ok v => .ok v
      | .error _ => findVisual ds depth
    else
      findVisual ds depth

/-! ## Coordinator construction (`newScreenImpl`) -/

/-- Outcomes of the fallible external calls made during `newScreenImpl`.
Each `internX` field is the end-to-end result of one `internAtom` call
(already wrapped in its error message); `queryPictFormats` is the result of
`render.QueryPictFormats(...).Reply()`. -/
structure ScreenSetupEnv where
  internDeleteWindow : Except String Nat
  internProtocols : Except String Nat
  internTakeFocus : Except String Nat
  queryPictFormats : Except String (List Pictforminfo)
  allowedDepths : List DepthInfo
  newColormapId : Except String Nat
  createColormapChecked : Except String Unit
  newWindowId32 : Except String Nat
  newGcontextId32 : Except String Nat
deriving Repr

/-- `initAtoms`: intern the three well-known atoms, short-circuiting. -/
def initAtoms (env : ScreenSetupEnv) : Except String (Nat × Nat × Nat) := do
  let del ← env.internDeleteWindow
  let prot ← env.internProtocols
  let foc ← env.internTakeFocus
  return (del, prot, foc)

/-- `initPictformats`: query the formats, then match depth 24 and depth 32. -/
def initPictformats (env : ScreenSetupEnv) : Except String (Nat × Nat) := do
  let fs ← match env.queryPictFormats with
    | .error e => Except.error ("x11driver: render.QueryPictFormats failed: " ++ e)
    | .ok fs => Except.ok fs
  let p24 ← findPictformat fs 24
  let p32 ← findPictformat fs 32
  return (p24, p32)

/-- `initWindow32`: find a depth-32 visual, create a colormap, and allocate
the helper window and graphics-context ids.  The unchecked `CreateWindow` and
`CreateGC` requests issue no observable failure. -/
def initWindow32 (env : ScreenSetupEnv) : Except String (Nat × Nat) := do
  let _visualid ← findVisual env.allowedDepths 32
  let _colormap ← env.newColormapId
  let _ ← env.createColormapChecked
  let w32 ← env.newWindowId32
  let g32 ← env.newGcontextId32
  return (w32, g32)

/-- The fields of `screenImpl` fixed at construction time. -/
structure ScreenConfig where
  atomWMDeleteWindow : Nat
  atomWMProtocols : Nat
  atomWMTakeFocus : Nat
  pictformat24 : Nat
  pictformat32 : Nat
  window32 : Nat
  gcontext32 : Nat
deriving DecidableEq, Repr

/-- `newScreenImpl`: run the three init steps in order; any failure aborts
construction and no instance is produced. -/
def newScreenImpl (env : ScreenSetupEnv) : Except String ScreenConfig := do
  let (del, prot, foc) ← initAtoms env
  let (p24, p32) ← initPictformats env
  let (w32, g32) ← initWindow32 env
  return { atomWMDeleteWindow := del, atomWMProtocols := prot, atomWMTakeFocus := foc
           pictformat24 := p24, pictformat32 := p32
           window32 := w32, gcontext32 := g32 }

/-! ## Shared state: the tables guarded by `s.mu`, plus observable effects -/

/-- `windowImpl` as far as the screen code sees it: its X resource ids and its
`xevents` delivery channel, identified by a channel id fresh per creation. -/
structure WindowImpl where
  xw : Nat
  xg : Nat
  xp : Nat
  chanId : Nat
deriving DecidableEq, Repr

/-- `bufferImpl` as built by `NewBuffer`: mapped address, byte buffer length,
the `image.RGBA` view (its `Pix` length and `Stride`), size, and segment id.
Lengths are `Int` because they are computed in Go `int` arithmetic. -/
structure BufferImpl where
  addr : Nat
  bufLen : Int
  rgbaPixLen : Int
  rgbaStride : Int
  width : Int
  height : Int
  xs : Nat
deriving DecidableEq, Repr

/-- A pending `completion` record: the optional sender (recipient id) and the
segment id of the buffer carried by the uploaded event. -/
structure UploadCompletion where
  sender : Option Nat
  eventBufferSeg : Nat
deriving DecidableEq, Repr

/-- The coordinator's mutable state: the three tables, a fresh-channel
counter, and observable-effect logs (per-channel close counts, channel
deliveries, `postUpload` calls, spawned completion sends, log lines). -/
structure ScreenState where
  buffers : Nat → Option BufferImpl
  uploads : Nat → Option UploadCompletion
  windows : Nat → Option WindowImpl
  nextChan : Nat
  closeCount : Nat → Nat
  delivered : List (Nat × Nat)
  posted : List Nat
  spawnedSends : List (Nat × Nat)
  log : List String

/-- The fresh state built by `newScreenImpl`: all three tables empty. -/
def initialState : ScreenState :=
  { buffers := fun _ => none
    uploads := fun _ => none
    windows := fun _ => none
    nextChan := 0
    closeCount := fun _ => 0
    delivered := []
    posted := []
    spawnedSends := []
    log := [] }

/-- `findBuffer`: lookup under the lock. -/
def findBuffer (s : ScreenState) (key : Nat) : Option BufferImpl :=
  s.buffers key

/-- `handleCompletion`: look up the pending completion by sequence number
(under the lock); if absent, log and drop; if present, call the buffer's
`postUpload` and, when a sender is registered, spawn `sender.Send` on its own
goroutine.  The code does not delete the `uploads` entry. -/
def handleCompletion (s : ScreenState) (seq : Nat) : ScreenState :=
  match s.uploads seq with
  | none =>
    { s with log := s.log ++ ["x11driver: no matching upload for a SHM completion event"] }
  | some c =>
    let s1 := { s with posted := s.posted ++ [c.eventBufferSeg] }
    match c.sender with
    | none => s1
    | some snd => { s1 with spawnedSends := s1.spawnedSends ++ [(snd, seq)] }

/-! ## The dispatch loop (`run`) -/

/-- The protocol events the `run` loop distinguishes, reduced to the data the
loop reads: the shm sequence number, or the window id extracted per event
kind.  `other` stands for every event type hit by the `default` case. -/
inductive XEvent where
  | completion (seq : Nat)
  | clientMessage (xw : Nat)
  | configureNotify (xw : Nat)
  | destroyNotify (xw : Nat)
  | expose (xw : Nat)
  | focusIn (xw : Nat)
  | focusOut (xw : Nat)
  | keyPress (xw : Nat)
  | keyRelease (xw : Nat)
  | buttonPress (xw : Nat)
  | buttonRelease (xw : Nat)
  | motionNotify (xw : Nat)
  | other
deriving DecidableEq, Repr

/-- An encoding of events for the delivery log (channel sends carry the
event; we record its constructor index and window id). -/
def XEvent.code : XEvent → Nat
  | .completion seq => 100 + seq
  | .clientMessage xw => 200 + xw
  | .configureNotify xw => 300 + xw
  | .destroyNotify xw => 400 + xw
  | .expose xw => 500 + xw
  | .focusIn xw => 600 + xw
  | .focusOut xw => 700 + xw
  | .keyPress xw => 800 + xw
  | .keyRelease xw => 900 + xw
  | .buttonPress xw => 1000 + xw
  | .buttonRelease xw => 1100 + xw
  | .motionNotify xw => 1200 + xw
  | .other => 0

/-- The tail of a `run` iteration for a window-addressed event: look the id
up, delete the entry when the event is a destroy-notification (both under the
lock), then log-and-drop when no window was found, close the channel on
destroy, or deliver the event on the channel. -/
def dispatchWindowEvent (s : ScreenState) (ev : XEvent) (xw : Nat) (destroy : Bool) :
    ScreenState :=
  let w := s.windows xw
  let s1 := if destroy then { s with windows := mapErase s.windows xw } else s
  match w with
  | none =>
    { s1 with log := s1.log ++ ["x11driver: no window found for event"] }
  | some wi =>
    if destroy then
      { s1 with closeCount := fun c =>
          if c = wi.chanId then s1.closeCount c + 1 else s1.closeCount c }
    else
      { s1 with delivered := s1.delivered ++ [(wi.chanId, ev.code)] }

/-- One iteration of the `run` loop on a successfully read event: the
`switch` classifies the event, shm completions go to `handleCompletion`,
unrecognized events are dropped, and window-addressed events are routed. -/
def runStep (s : ScreenState) (ev : XEvent) : ScreenState :=
  match ev with
  | .other => s
  | .completion seq => handleCompletion s seq
  | .clientMessage xw => dispatchWindowEvent s ev xw false
  | .configureNotify xw => dispatchWindowEvent s ev xw false
  | .destroyNotify xw => dispatchWindowEvent s ev xw true
  | .expose xw => dispatchWindowEvent s ev xw false
  | .focusIn xw => dispatchWindowEvent s ev xw false
  | .focusOut xw => dispatchWindowEvent s ev xw false
  | .keyPress xw => dispatchWindowEvent s ev xw false
  | .keyRelease xw => dispatchWindowEvent s ev xw false
  | .buttonPress xw => dispatchWindowEvent s ev xw false
  | .buttonRelease xw => dispatchWindowEvent s ev xw false
  | .motionNotify xw => dispatchWindowEvent s ev xw false

/-! ## Buffer creation (`NewBuffer`) -/

/-- `image.Point`: Go `int` coordinates. -/
structure Point where
  x : Int
  y : Int
deriving DecidableEq, Repr

def maxShmSide : Int := 0x00007fff
def maxShmSize : Int := 0x10000000

/-- Outcomes of the fallible calls `NewBuffer` makes.  `attach` records the
server-side outcome of the `shm.Attach` request; the code issues that request
unchecked (the cookie is discarded, no `.Check()`), so its outcome cannot
influence the return value. -/
structure BufferEnv where
  newSegId : Except String Nat
  shmOpen : Except String (Nat × Nat)
  attach : Except String Unit
deriving Repr

/-- The resource-affecting steps `NewBuffer` can take, in program order:
consuming a segment id, opening the OS shared-memory region of a byte
length, the deferred `shmClose` on an error return, the `shm.Attach`
request. -/
inductive BufAction where
  | newSegId (xs : Nat)
  | shmOpen (len : Int)
  | shmClose (addr : Nat)
  | attach (xs shmid : Nat) (readOnly : Bool)
deriving DecidableEq, Repr

/-- `NewBuffer`: validate the size with the short-circuit guard
`w < 0 || maxShmSide < w || h < 0 || maxShmSide < h || maxShmSize < 4*w*h`,
allocate a segment id, open the shared-memory region, slice the pixel view
(`Pix` of length `bufLen`, `Stride` 4×width), issue the unchecked attach,
and register the buffer under its segment id.  A deferred closure runs
`shmClose(addr)` if the call returns a non-nil error after the region was
opened; every path after a successful open returns a nil error, so that
close never fires. -/
def NewBuffer (env : BufferEnv) (s : ScreenState) (size : Point) :
    Except String BufferImpl × ScreenState × List BufAction :=
  let w : Int := size.x
  let h : Int := size.y
  if w < 0 ∨ maxShmSide < w ∨ h < 0 ∨ maxShmSide < h ∨ maxShmSize < 4 * w * h then
    (.error "x11driver: invalid buffer size", s, [])
  else
    match env.newSegId with
    | .error e => (.error ("x11driver: shm.NewSegId: " ++ e), s, [])
    | .ok xs =>
      let bufLen : Int := 4 * size.x * size.y
      match env.shmOpen with
      | .error e => (.error ("x11driver: shmOpen: " ++ e), s, [.newSegId xs])
      | .ok (shmid, addr) =>
        let b : BufferImpl :=
          { addr := addr
            bufLen := bufLen
            rgbaPixLen := bufLen
            rgbaStride := 4 * size.x
            width := size.x
            height := size.y
            xs := xs }
        let s1 := { s with buffers := mapInsert s.buffers xs b }
        (.ok b, s1, [.newSegId xs, .shmOpen bufLen, .attach xs shmid false])

/-! ## Property encoding (`setProperty`) -/

/-- The byte buffer built by `setProperty`'s loop: for each 32-bit atom
value, four bytes in little-endian order (`uint8(v >> 0)`, `uint8(v >> 8)`,
`uint8(v >> 16)`, `uint8(v >> 24)`), value `i` occupying offsets
`4*i .. 4*i+3`. -/
def packAtoms : List Nat → List Nat
  | [] => []
  | v :: vs =>
    (v >>> 0) % 256 :: (v >>> 8) % 256 :: (v >>> 16) % 256 :: (v >>> 24) % 256 ::
      packAtoms vs

/-- A `xproto.ChangeProperty` request as issued by `setProperty`: replace
mode, 32-bit format, the value count `uint32(len(values))`, and the packed
data bytes. -/
structure ChangePropertyReq where
  window : Nat
  property : Nat
  format : Nat
  dataLen : Nat
  data : List Nat
deriving DecidableEq, Repr

/-- `setProperty`: pack the atom values into one contiguous buffer and issue
a single property-change request. -/
def setProperty (xw prop : Nat) (values : List Nat) : List ChangePropertyReq :=
  [{ window := xw, property := prop, format := 32
     dataLen := values.length, data := packAtoms values }]

/-! ## Window creation (`NewWindow`) -/

/-- Outcomes of the three id allocations `NewWindow` performs. -/
structure WindowEnv where
  newWindowId : Except String Nat
  newGcontextId : Except String Nat
  newPictureId : Except String Nat
deriving Repr

/-- Event-mask bits from `xproto`. -/
def EventMaskKeyPress : Nat := 0x00000001
def EventMaskKeyRelease : Nat := 0x00000002
def EventMaskButtonPress : Nat := 0x00000004
def EventMaskButtonRelease : Nat := 0x00000008
def EventMaskPointerMotion : Nat := 0x00000040
def EventMaskExposure : Nat := 0x00008000
def EventMaskStructureNotify : Nat := 0x00020000
def EventMaskFocusChange : Nat := 0x00200000

/-- The event mask `NewWindow` passes to `xproto.CreateWindow`. -/
def newWindowEventMask : Nat :=
  0 |||
  EventMaskKeyPress |||
  EventMaskKeyRelease |||
  EventMaskButtonPress |||
  EventMaskButtonRelease |||
  EventMaskPointerMotion |||
  EventMaskExposure |||
  EventMaskStructureNotify |||
  EventMaskFocusChange

/-- The protocol requests `NewWindow` issues after registering the window. -/
inductive WReq where
  | createWindow (depth xw parent : Nat) (x y width height borderWidth : Nat)
      (visual : Nat) (eventMask : Nat)
  | changeProperty (req : ChangePropertyReq)
  | createGC (xg xw : Nat)
  | createPicture (xp xw pictformat : Nat)
  | mapWindow (xw : Nat)
deriving DecidableEq, Repr

/-- `NewWindow`: allocate window, graphics-context and picture ids; pick the
pict format for the root depth (only 24 and 32 are supported); build the
window object with a fresh `xevents` channel and start its pump; register it
in `s.windows` under its id; then issue the create-window (fixed geometry
0,0,1024×768 — the options argument is never read), set-protocols-property,
create-GC, create-picture and map-window requests.  `opts` is the
`*screen.NewWindowOptions` argument, of arbitrary type since no field of it
is ever accessed. -/
def NewWindow {Opts : Type} (env : WindowEnv) (cfg : ScreenConfig)
    (rootDepth root rootVisual : Nat) (s : ScreenState) (opts : Option Opts) :
    Except String WindowImpl × ScreenState × List WReq :=
  match env.newWindowId with
  | .error e => (.error ("x11driver: xproto.NewWindowId failed: " ++ e), s, [])
  | .ok xw =>
  match env.newGcontextId with
  | .error e => (.error ("x11driver: xproto.NewGcontextId failed: " ++ e), s, [])
  | .ok xg =>
  match env.newPictureId with
  | .error e => (.error ("x11driver: render.NewPictureId failed: " ++ e), s, [])
  | .ok xp =>
  if rootDepth = 24 ∨ rootDepth = 32 then
    let pictformat := if rootDepth = 24 then cfg.pictformat24 else cfg.pictformat32
    let w : WindowImpl := { xw := xw, xg := xg, xp := xp, chanId := s.nextChan }
    let s1 := { s with windows := mapInsert s.windows xw w, nextChan := s.nextChan + 1 }
    (.ok w, s1,
      [.createWindow rootDepth xw root 0 0 1024 768 0 rootVisual newWindowEventMask] ++
      (setProperty xw cfg.atomWMProtocols
        [cfg.atomWMDeleteWindow, cfg.atomWMTakeFocus]).map .changeProperty ++
      [.createGC xg xw, .createPicture xp xw pictformat, .mapWindow xw])
  else
    (.error ("x11driver: unsupported root depth " ++ toString rootDepth), s, [])

/-! ## Helper lemmas -/

theorem packAtoms_length (vs : List Nat) : (packAtoms vs).length = 4 * vs.length := by
  induction vs with
  | nil => rfl
  | cons v vs ih => simp [packAtoms, ih]; omega

theorem packAtoms_getElem (vs : List Nat) (i j : Nat) (hi : i < vs.length) (hj : j < 4) :
    (packAtoms vs)[4 * i + j]? = some ((vs[i] >>> (8 * j)) % 256) := by
  induction vs generalizing i with
  | nil => exact absurd hi (Nat.not_lt_zero i)
  | cons v vs ih =>
    cases i with
    | zero =>
      interval_cases j <;> simp [packAtoms]
    | succ i =>
      have harith : 4 * (i + 1) + j = (4 * i + j) + 1 + 1 + 1 + 1 := by omega
      rw [harith]
      simp only [packAtoms, List.getElem?_cons_succ, List.getElem_cons_succ]
      exact ih i (Nat.lt_of_succ_lt_succ hi)

theorem findPictformat_error (fs : List Pictforminfo) (depth : Nat)
    (h : ∀ f ∈ fs, ¬(f.type = .direct ∧ f.depth = depth ∧ f.direct = wantFormat depth)) :
    findPictformat fs depth =
      .error ("x11driver: no matching Pictformat for depth " ++ toString depth) := by
  induction fs with
  | nil => rfl
  | cons f fs ih =>
    rw [findPictformat, if_neg (h f (List.mem_cons_self f fs))]
    exact ih fun g hg => h g (List.mem_cons_of_mem f hg)

theorem findPictformat_ok (fs : List Pictforminfo) (depth pf : Nat)
    (h : findPictformat fs depth = .ok pf) :
    ∃ f, f ∈ fs ∧ f.id = pf ∧ f.type = .direct ∧ f.depth = depth ∧
      f.direct = wantFormat depth := by
  induction fs with
  | nil => simp [findPictformat] at h
  | cons f fs ih =>
    rw [findPictformat] at h
    by_cases hc : f.type = .direct ∧ f.depth = depth ∧ f.direct = wantFormat depth
    · rw [if_pos hc] at h
      injection h with h
      exact ⟨f, List.mem_cons_self f fs, h, hc⟩
    · rw [if_neg hc] at h
      obtain ⟨g, hg, rest⟩ := ih h
      exact ⟨g, List.mem_cons_of_mem f hg, rest⟩

/-! ## Sample environments and states used by the concrete witnesses -/

/-- A buffer environment in which every fallible call succeeds. -/
def envBufOk : BufferEnv :=
  { newSegId := .ok 7, shmOpen := .ok (3, 1000), attach := .ok () }

/-- A buffer environment in which the server-side shm attach fails. -/
def envBufAttachFail : BufferEnv :=
  { newSegId := .ok 7, shmOpen := .ok (3, 1000), attach := .error "attach failed" }

/-! ## Claim theorems -/

/-- C3: for every requested buffer size whose width is negative or exceeds
32767, or whose height is negative or exceeds 32767, or where 4×width×height
exceeds 268,435,456 bytes, `NewBuffer` returns a size error, leaves the
state untouched, and performs no action at all: no segment id is allocated
and no shared memory is opened. -/
theorem newBuffer_rejects_invalid_size (env : BufferEnv) (s : ScreenState) (size : Point)
    (h : size.x < 0 ∨ maxShmSide < size.x ∨ size.y < 0 ∨ maxShmSide < size.y ∨
      maxShmSize < 4 * size.x * size.y) :
    isErr (NewBuffer env s size).1 = true ∧
    (NewBuffer env s size).2.1 = s ∧
    (NewBuffer env s size).2.2 = [] := by
  rw [NewBuffer]
  rw [if_pos h]
  exact ⟨rfl, rfl, rfl⟩

/-- C3 witness: the spec's example (40000, 1) is rejected with no action. -/
theorem newBuffer_rejects_invalid_size_witness :
    isErr (NewBuffer envBufOk initialState ⟨40000, 1⟩).1 = true ∧
    (NewBuffer envBufOk initialState ⟨40000, 1⟩).2.2 = [] := by
  have h := newBuffer_rejects_invalid_size envBufOk initialState ⟨40000, 1⟩
    (Or.inr (Or.inl (by norm_num [maxShmSide])))
  exact ⟨h.1, h.2.2⟩

/-- C4: for every size with 0 ≤ width ≤ 32767, 0 ≤ height ≤ 32767 and
4·width·height ≤ 268,435,456, when segment-id allocation and the
shared-memory open succeed, `NewBuffer` returns a buffer whose pixel view is
exactly 4·width·height bytes with row stride 4·width, registered in the
buffer table under its segment id. -/
theorem newBuffer_valid_size_succeeds (env : BufferEnv) (s : ScreenState) (size : Point)
    (xs shmid addr : Nat)
    (hx0 : 0 ≤ size.x) (hx1 : size.x ≤ maxShmSide)
    (hy0 : 0 ≤ size.y) (hy1 : size.y ≤ maxShmSide)
    (hsz : 4 * size.x * size.y ≤ maxShmSize)
    (hseg : env.newSegId = .ok xs) (hopen : env.shmOpen = .ok (shmid, addr)) :
    ∃ b : BufferImpl,
      (NewBuffer env s size).1 = .ok b ∧
      b.rgbaPixLen = 4 * size.x * size.y ∧
      b.rgbaStride = 4 * size.x ∧
      b.xs = xs ∧
      (NewBuffer env s size).2.1.buffers xs = some b := by
  have hguard : ¬(size.x < 0 ∨ maxShmSide < size.x ∨ size.y < 0 ∨ maxShmSide < size.y ∨
      maxShmSize < 4 * size.x * size.y) := by
    push_neg
    exact ⟨hx0, hx1, hy0, hy1, hsz⟩
  refine ⟨{ addr := addr, bufLen := 4 * size.x * size.y,
            rgbaPixLen := 4 * size.x * size.y, rgbaStride := 4 * size.x,
            width := size.x, height := size.y, xs := xs }, ?_, rfl, rfl, rfl, ?_⟩ <;>
    simp [NewBuffer, if_neg hguard, hseg, hopen, mapInsert]

/-- The buffer produced by `NewBuffer` in the (10, 10) example. -/
def bufW : BufferImpl :=
  { addr := 1000, bufLen := 400, rgbaPixLen := 400, rgbaStride := 40,
    width := 10, height := 10, xs := 7 }

/-- C4 witness: the spec's example (10, 10) succeeds, yielding a 400-byte
pixel view with row stride 40, registered under segment id 7. -/
theorem newBuffer_valid_size_succeeds_witness :
    (NewBuffer envBufOk initialState ⟨10, 10⟩).1 = .ok bufW ∧
    bufW.rgbaPixLen = 400 ∧ bufW.rgbaStride = 40 ∧
    (NewBuffer envBufOk initialState ⟨10, 10⟩).2.1.buffers 7 = some bufW := by
  obtain ⟨b, hb, hpix, hstride, hxs, hreg⟩ :=
    newBuffer_valid_size_succeeds envBufOk initialState ⟨10, 10⟩ 7 3 1000
      (by norm_num) (by norm_num [maxShmSide]) (by norm_num)
      (by norm_num [maxShmSide]) (by norm_num [maxShmSize]) rfl rfl
  have hok : (NewBuffer envBufOk initialState ⟨10, 10⟩).1 = .ok bufW := rfl
  have hbval : b = bufW := by
    have h2 := hb.symm.trans hok
    injection h2
  exact ⟨hok, rfl, rfl, hbval ▸ hreg⟩

/-- C6 counterexample: with a valid size (10, 10) and a successful id
allocation and shared-memory open, a server-side failure of the `shm.Attach`
request does not produce an error return: `NewBuffer` still returns the
buffer, and the action trace holds no `shmClose` (no region release), because
the attach request is issued unchecked (its cookie is discarded). -/
theorem newBuffer_attach_failure_undetected :
    envBufAttachFail.attach = .error "attach failed" ∧
    (NewBuffer envBufAttachFail initialState ⟨10, 10⟩).1 = .ok bufW ∧
    (NewBuffer envBufAttachFail initialState ⟨10, 10⟩).2.2 =
      [.newSegId 7, .shmOpen 400, .attach 7 3 false] := by
  exact ⟨rfl, rfl, rfl⟩

/-- C6 amended: once the size guard passes, the segment id is allocated and
the shared-memory region opens, no later step of `NewBuffer` can fail — the
attach outcome is never consulted — so the call returns the buffer with a
nil error regardless of the attach result, and the deferred
release-on-error (`shmClose`) never fires: the trace is exactly id
allocation, region open, unchecked attach. -/
theorem newBuffer_no_failure_after_open (env : BufferEnv) (s : ScreenState) (size : Point)
    (xs shmid addr : Nat)
    (hguard : ¬(size.x < 0 ∨ maxShmSide < size.x ∨ size.y < 0 ∨ maxShmSide < size.y ∨
      maxShmSize < 4 * size.x * size.y))
    (hseg : env.newSegId = .ok xs) (hopen : env.shmOpen = .ok (shmid, addr)) :
    isErr (NewBuffer env s size).1 = false ∧
    (NewBuffer env s size).2.2 =
      [.newSegId xs, .shmOpen (4 * size.x * size.y), .attach xs shmid false] ∧
    ∀ a : Nat, BufAction.shmClose a ∉ (NewBuffer env s size).2.2 := by
  refine ⟨?_, ?_, ?_⟩ <;> simp [NewBuffer, if_neg hguard, hseg, hopen, isErr]

/-- C6 amended witness: at size (10, 10) with a failed attach, the call
succeeds and the trace releases nothing. -/
theorem newBuffer_no_failure_after_open_witness :
    isErr (NewBuffer envBufAttachFail initialState ⟨10, 10⟩).1 = false ∧
    BufAction.shmClose 1000 ∉ (NewBuffer envBufAttachFail initialState ⟨10, 10⟩).2.2 := by
  have h := newBuffer_no_failure_after_open envBufAttachFail initialState ⟨10, 10⟩ 7 3 1000
    (by norm_num [maxShmSide, maxShmSize]) rfl rfl
  exact ⟨h.1, h.2.2 1000⟩

/-- C9: setting a multi-value atom-list property packs each 32-bit atom
value into a contiguous byte buffer in little-endian order — 4 bytes per
value, value `i`'s byte `j` at offset `4*i+j` holding bits `8*j..8*j+7` —
and issues a single property-change request whose value count equals the
number of atoms. -/
theorem setProperty_little_endian (xw prop : Nat) (values : List Nat) :
    (setProperty xw prop values).length = 1 ∧
    ∀ req ∈ setProperty xw prop values,
      req.dataLen = values.length ∧
      req.data.length = 4 * values.length ∧
      ∀ i, (hi : i < values.length) → ∀ j, j < 4 →
        req.data[4 * i + j]? = some ((values[i] >>> (8 * j)) % 256) := by
  refine ⟨rfl, ?_⟩
  intro req hreq
  have hr :
      req = ChangePropertyReq.mk xw prop 32 values.length (packAtoms values) := by
    simpa [setProperty] using hreq
  subst hr
  exact ⟨rfl, packAtoms_length values, fun i hi j hj => packAtoms_getElem values i j hi hj⟩

/-- The single request issued when setting atoms 0x01020304, 0x0A0B0C0D. -/
def reqW : ChangePropertyReq :=
  ChangePropertyReq.mk 5 6 32 2 (packAtoms [16909060, 168496141])

/-- C9 witness: packing atoms 0x01020304 and 0x0A0B0C0D: one request, count
2, and value 1's byte 2 (bits 16..23, 0x0B) sits at offset 6. -/
theorem setProperty_little_endian_witness :
    (setProperty 5 6 [16909060, 168496141]).length = 1 ∧
    reqW ∈ setProperty 5 6 [16909060, 168496141] ∧
    reqW.dataLen = 2 ∧
    reqW.data[6]? = some 11 := by
  have h := setProperty_little_endian 5 6 [16909060, 168496141]
  have hmem : reqW ∈ setProperty 5 6 [16909060, 168496141] := by
    simp [setProperty, reqW]
  obtain ⟨hlen, hdata, hidx⟩ := h.2 _ hmem
  refine ⟨h.1, hmem, hlen, ?_⟩
  have h12 := hidx 1 (by norm_num) 2 (by norm_num)
  simpa using h12

/-- The direct-color layout the negotiator demands for depth 24: 8-bit red,
green and blue at shifts 16, 8 and 0, no alpha field. -/
def layout24 : Directformat :=
  Directformat.mk 16 0xff 8 0xff 0 0xff 0 0x00

/-- The layout for depth 32: as depth 24, plus 8-bit alpha at shift 24. -/
def layout32 : Directformat :=
  Directformat.mk 16 0xff 8 0xff 0 0xff 24 0xff

/-- C5: format negotiation selects, for depth 24, a direct-color advertised
format with 8-bit red/green/blue at shifts 16/8/0 and no alpha field, and
for depth 32 the same plus 8-bit alpha at shift 24; if either depth has no
matching advertised format, negotiation errors and `newScreenImpl` fails —
no instance is produced. -/
theorem pictformat_negotiation (fs : List Pictforminfo) :
    (∀ pf, findPictformat fs 24 = .ok pf →
      ∃ f, f ∈ fs ∧ f.id = pf ∧ f.type = .direct ∧ f.depth = 24 ∧ f.direct = layout24) ∧
    (∀ pf, findPictformat fs 32 = .ok pf →
      ∃ f, f ∈ fs ∧ f.id = pf ∧ f.type = .direct ∧ f.depth = 32 ∧ f.direct = layout32) ∧
    (∀ env : ScreenSetupEnv, env.queryPictFormats = .ok fs →
      ((∀ f ∈ fs, ¬(f.type = .direct ∧ f.depth = 24 ∧ f.direct = wantFormat 24)) ∨
       (∀ f ∈ fs, ¬(f.type = .direct ∧ f.depth = 32 ∧ f.direct = wantFormat 32))) →
      isErr (newScreenImpl env) = true) := by
  have h24 : wantFormat 24 = layout24 := rfl
  have h32 : wantFormat 32 = layout32 := rfl
  refine ⟨?_, ?_, ?_⟩
  · intro pf h
    obtain ⟨f, hf, hid, ht, hd, hw⟩ := findPictformat_ok fs 24 pf h
    exact ⟨f, hf, hid, ht, hd, h24 ▸ hw⟩
  · intro pf h
    obtain ⟨f, hf, hid, ht, hd, hw⟩ := findPictformat_ok fs 32 pf h
    exact ⟨f, hf, hid, ht, hd, h32 ▸ hw⟩
  · intro env hq hmiss
    rcases hdel : env.internDeleteWindow with e | del
    · simp [newScreenImpl, initAtoms, hdel, isErr, Bind.bind, Except.bind]
    rcases hprot : env.internProtocols with e | prot
    · simp [newScreenImpl, initAtoms, hdel, hprot, isErr, Bind.bind, Except.bind]
    rcases hfoc : env.internTakeFocus with e | foc
    · simp [newScreenImpl, initAtoms, hdel, hprot, hfoc, isErr, Bind.bind, Except.bind]
    have hpf : isErr (initPictformats env) = true := by
      rcases hmiss with hmiss | hmiss
      · have h := findPictformat_error fs 24 hmiss
        simp [initPictformats, hq, h, isErr, Bind.bind, Except.bind]
      · have h := findPictformat_error fs 32 hmiss
        rcases hp24 : findPictformat fs 24 with e | p24 <;>
          simp [initPictformats, hq, h, hp24, isErr, Bind.bind, Except.bind]
    rcases hpfe : initPictformats env with e | p
    · simp [newScreenImpl, initAtoms, hdel, hprot, hfoc, hpfe, isErr, Bind.bind, Except.bind,
        pure, Except.pure]
    · rw [hpfe] at hpf
      simp [isErr] at hpf

/-- A pict-format list offering only a depth-16 direct format. -/
def fs16 : List Pictforminfo :=
  [Pictforminfo.mk 9 .direct 16 (Directformat.mk 11 0x1f 5 0x3f 0 0x1f 0 0)]

/-- A setup environment whose server advertises only the depth-16 format. -/
def envSetup16 : ScreenSetupEnv :=
  { internDeleteWindow := .ok 101, internProtocols := .ok 102, internTakeFocus := .ok 103,
    queryPictFormats := .ok fs16, allowedDepths := [], newColormapId := .ok 30,
    createColormapChecked := .ok (), newWindowId32 := .ok 31, newGcontextId32 := .ok 32 }

/-- C5 witness: the spec's example — a server offering only a depth-16
direct-color format — makes coordinator construction fail. -/
theorem pictformat_negotiation_witness :
    isErr (newScreenImpl envSetup16) = true := by
  have h := (pictformat_negotiation fs16).2.2 envSetup16 rfl
  exact h (Or.inl (by decide))

/-- A window environment in which every id allocation succeeds. -/
def envWinOk : WindowEnv :=
  { newWindowId := .ok 11, newGcontextId := .ok 12, newPictureId := .ok 13 }

/-- A sample screen configuration for the window witnesses. -/
def cfgW : ScreenConfig :=
  { atomWMDeleteWindow := 101, atomWMProtocols := 102, atomWMTakeFocus := 103,
    pictformat24 := 24, pictformat32 := 32, window32 := 40, gcontext32 := 41 }

/-- C7: `NewWindow` returns an unsupported-depth error when the root depth is
neither 24 nor 32 (after the three id allocations succeed), and on every
error path — any failed id allocation or the depth check — it returns with
the window registry untouched: no partial registration is left behind. -/
theorem newWindow_depth_check_no_partial_registration {Opts : Type} (env : WindowEnv)
    (cfg : ScreenConfig) (rootDepth root rootVisual : Nat) (s : ScreenState)
    (opts : Option Opts) :
    ((∃ xw, env.newWindowId = .ok xw) → (∃ xg, env.newGcontextId = .ok xg) →
      (∃ xp, env.newPictureId = .ok xp) → rootDepth ≠ 24 → rootDepth ≠ 32 →
      (NewWindow env cfg rootDepth root rootVisual s opts).1 =
        .error ("x11driver: unsupported root depth " ++ toString rootDepth)) ∧
    (isErr (NewWindow env cfg rootDepth root rootVisual s opts).1 = true →
      (NewWindow env cfg rootDepth root rootVisual s opts).2.1 = s) := by
  constructor
  · rintro ⟨xw, hxw⟩ ⟨xg, hxg⟩ ⟨xp, hxp⟩ h24 h32
    have hd : ¬(rootDepth = 24 ∨ rootDepth = 32) := by tauto
    simp [NewWindow, hxw, hxg, hxp, hd]
  · intro herr
    rcases hxw : env.newWindowId with e | xw
    · simp [NewWindow, hxw]
    rcases hxg : env.newGcontextId with e | xg
    · simp [NewWindow, hxw, hxg]
    rcases hxp : env.newPictureId with e | xp
    · simp [NewWindow, hxw, hxg, hxp]
    by_cases hd : rootDepth = 24 ∨ rootDepth = 32
    · simp [NewWindow, hxw, hxg, hxp, hd, isErr] at herr
    · simp [NewWindow, hxw, hxg, hxp, hd]

/-- C7 witness: root depth 16 with all ids allocated yields the
unsupported-depth error and leaves the registry untouched. -/
theorem newWindow_depth_check_no_partial_registration_witness :
    (NewWindow envWinOk cfgW 16 1 2 initialState (none : Option Unit)).1 =
      .error "x11driver: unsupported root depth 16" ∧
    (NewWindow envWinOk cfgW 16 1 2 initialState (none : Option Unit)).2.1 =
      initialState := by
  have h := newWindow_depth_check_no_partial_registration envWinOk cfgW 16 1 2
    initialState (none : Option Unit)
  have herr := h.1 ⟨11, rfl⟩ ⟨12, rfl⟩ ⟨13, rfl⟩ (by norm_num) (by norm_num)
  refine ⟨herr, h.2 ?_⟩
  rw [herr]
  rfl

/-- C10: `NewWindow` never reads its options argument — results for any two
options values (even of different types) are identical — and when the ids
allocate and the depth is supported, the creation request it issues uses the
fixed geometry: position (0,0), size 1024×768. -/
theorem newWindow_ignores_options {O1 O2 : Type} (env : WindowEnv) (cfg : ScreenConfig)
    (rootDepth root rootVisual : Nat) (s : ScreenState)
    (o1 : Option O1) (o2 : Option O2) :
    NewWindow env cfg rootDepth root rootVisual s o1 =
      NewWindow env cfg rootDepth root rootVisual s o2 ∧
    (∀ xw xg xp, env.newWindowId = .ok xw → env.newGcontextId = .ok xg →
      env.newPictureId = .ok xp → (rootDepth = 24 ∨ rootDepth = 32) →
      (NewWindow env cfg rootDepth root rootVisual s o1).2.2.head? =
        some (.createWindow rootDepth xw root 0 0 1024 768 0 rootVisual
          newWindowEventMask)) := by
  constructor
  · rfl
  · intro xw xg xp hxw hxg hxp hd
    simp [NewWindow, hxw, hxg, hxp, hd]

/-- C10 witness: with options `none : Option Unit` and `some true`, the two
calls coincide and the creation request fixes geometry (0,0,1024,768). -/
theorem newWindow_ignores_options_witness :
    NewWindow envWinOk cfgW 24 1 2 initialState (none : Option Unit) =
      NewWindow envWinOk cfgW 24 1 2 initialState (some true) ∧
    (NewWindow envWinOk cfgW 24 1 2 initialState (none : Option Unit)).2.2.head? =
      some (.createWindow 24 11 1 0 0 1024 768 0 2 newWindowEventMask) := by
  have h := newWindow_ignores_options envWinOk cfgW 24 1 2 initialState
    (none : Option Unit) (some true)
  exact ⟨h.1, h.2 11 12 13 rfl rfl rfl (Or.inl rfl)⟩

/-- A state holding one pending completion for sequence number 7. -/
def stUpload7 : ScreenState :=
  { initialState with
      uploads := fun n =>
        if n = 7 then some (UploadCompletion.mk (some 2) 5) else none }

/-- C1: processing a completion event for sequence number 7 — whose pending
entry exists — does run the entry (the buffer's `postUpload` is called and
the sender's `Send` is spawned), yet the pending-completion table still
holds the entry for 7 afterwards: `handleCompletion` only reads
`s.uploads[ev.Sequence]` and never deletes it, contradicting the claimed
look-up-and-remove behaviour. -/
theorem handleCompletion_retains_entry :
    (handleCompletion stUpload7 7).uploads 7 = some (UploadCompletion.mk (some 2) 5) ∧
    (handleCompletion stUpload7 7).posted = [5] ∧
    (handleCompletion stUpload7 7).spawnedSends = [(2, 7)] := by
  exact ⟨rfl, rfl, rfl⟩

/-- C2: for a window registered under its id, (a) any loop iteration on an
event other than a destroy-notification for that id leaves the registry
entry in place; (b) processing its destroy-notification removes the entry —
lookups then find nothing — and closes the window's delivery channel exactly
once; and (c) processing a second destroy-notification for the same id does
not close the channel again. -/
theorem window_registry_lifecycle (s : ScreenState) (xw : Nat) (w : WindowImpl)
    (hreg : s.windows xw = some w) :
    (∀ (env : WindowEnv) (cfg : ScreenConfig) (rd root rv : Nat) (s2 : ScreenState)
      (o : Option Unit) (w2 : WindowImpl),
      (NewWindow env cfg rd root rv s2 o).1 = .ok w2 →
      (NewWindow env cfg rd root rv s2 o).2.1.windows w2.xw = some w2) ∧
    (∀ ev : XEvent, ev ≠ .destroyNotify xw → (runStep s ev).windows xw = some w) ∧
    ((runStep s (.destroyNotify xw)).windows xw = none ∧
     (runStep s (.destroyNotify xw)).closeCount w.chanId = s.closeCount w.chanId + 1 ∧
     (runStep (runStep s (.destroyNotify xw)) (.destroyNotify xw)).closeCount w.chanId =
       s.closeCount w.chanId + 1) := by
  have hdestroy :
      runStep s (.destroyNotify xw) =
        { s with windows := mapErase s.windows xw
                 closeCount := fun c =>
                   if c = w.chanId then s.closeCount c + 1 else s.closeCount c } := by
    simp [runStep, dispatchWindowEvent, hreg]
  refine ⟨?_, ?_, ?_⟩
  · intro env cfg rd root rv s2 o w2 hok
    rcases hxw : env.newWindowId with e | xwa
    · simp [NewWindow, hxw] at hok
    rcases hxg : env.newGcontextId with e | xga
    · simp [NewWindow, hxw, hxg] at hok
    rcases hxp : env.newPictureId with e | xpa
    · simp [NewWindow, hxw, hxg, hxp] at hok
    by_cases hd : rd = 24 ∨ rd = 32
    · have hw2 : w2 = WindowImpl.mk xwa xga xpa s2.nextChan := by
        have hok2 := hok
        simp only [NewWindow, hxw, hxg, hxp, if_pos hd] at hok2
        injection hok2 with hok2
        exact hok2.symm
      subst hw2
      simp [NewWindow, hxw, hxg, hxp, hd, mapInsert]
    · simp [NewWindow, hxw, hxg, hxp, hd] at hok
  · intro ev hne
    cases ev with
    | completion seq =>
      rcases hc : s.uploads seq with _ | c
      · simpa [runStep, handleCompletion, hc] using hreg
      · rcases hs : c.sender with _ | snd <;>
          simpa [runStep, handleCompletion, hc, hs] using hreg
    | destroyNotify xw2 =>
      have hxw : xw ≠ xw2 := fun h => hne (by rw [h])
      rcases hw2 : s.windows xw2 with _ | w2 <;>
        simpa [runStep, dispatchWindowEvent, hw2, mapErase, hxw] using hreg
    | other => exact hreg
    | clientMessage xw2 =>
      rcases hw2 : s.windows xw2 with _ | w2 <;>
        simpa [runStep, dispatchWindowEvent, hw2] using hreg
    | configureNotify xw2 =>
      rcases hw2 : s.windows xw2 with _ | w2 <;>
        simpa [runStep, dispatchWindowEvent, hw2] using hreg
    | expose xw2 =>
      rcases hw2 : s.windows xw2 with _ | w2 <;>
        simpa [runStep, dispatchWindowEvent, hw2] using hreg
    | focusIn xw2 =>
      rcases hw2 : s.windows xw2 with _ | w2 <;>
        simpa [runStep, dispatchWindowEvent, hw2] using hreg
    | focusOut xw2 =>
      rcases hw2 : s.windows xw2 with _ | w2 <;>
        simpa [runStep, dispatchWindowEvent, hw2] using hreg
    | keyPress xw2 =>
      rcases hw2 : s.windows xw2 with _ | w2 <;>
        simpa [runStep, dispatchWindowEvent, hw2] using hreg
    | keyRelease xw2 =>
      rcases hw2 : s.windows xw2 with _ | w2 <;>
        simpa [runStep, dispatchWindowEvent, hw2] using hreg
    | buttonPress xw2 =>
      rcases hw2 : s.windows xw2 with _ | w2 <;>
        simpa [runStep, dispatchWindowEvent, hw2] using hreg
    | buttonRelease xw2 =>
      rcases hw2 : s.windows xw2 with _ | w2 <;>
        simpa [runStep, dispatchWindowEvent, hw2] using hreg
    | motionNotify xw2 =>
      rcases hw2 : s.windows xw2 with _ | w2 <;>
        simpa [runStep, dispatchWindowEvent, hw2] using hreg
  · refine ⟨?_, ?_, ?_⟩
    · rw [hdestroy]
      simp [mapErase]
    · rw [hdestroy]
      simp
    · rw [hdestroy]
      have hgone : (mapErase s.windows xw) xw = none := by simp [mapErase]
      simp [runStep, dispatchWindowEvent, hgone]

/-- A window object registered under id 3 with delivery channel 0. -/
def winW : WindowImpl := WindowImpl.mk 3 4 5 0

/-- A state holding only the window `winW` under id 3. -/
def stWin3 : ScreenState :=
  { initialState with
      windows := fun n => if n = 3 then some winW else none
      nextChan := 1 }

/-- C2 witness: a freshly created window is found under its id 11; in the
one-window state, a configure-notify leaves the entry in place; the
destroy-notification removes it and closes channel 0 exactly once; a
repeated destroy-notification does not close it again. -/
theorem window_registry_lifecycle_witness :
    (NewWindow envWinOk cfgW 24 1 2 initialState (none : Option Unit)).2.1.windows 11 =
      some (WindowImpl.mk 11 12 13 0) ∧
    (runStep stWin3 (.configureNotify 3)).windows 3 = some winW ∧
    (runStep stWin3 (.destroyNotify 3)).windows 3 = none ∧
    (runStep stWin3 (.destroyNotify 3)).closeCount 0 = 1 ∧
    (runStep (runStep stWin3 (.destroyNotify 3)) (.destroyNotify 3)).closeCount 0 = 1 := by
  have h := window_registry_lifecycle stWin3 3 winW rfl
  have hnew := h.1 envWinOk cfgW 24 1 2 initialState (none : Option Unit)
    (WindowImpl.mk 11 12 13 0) rfl
  have hkeep := h.2.1 (.configureNotify 3) (by simp)
  obtain ⟨hgone, honce, hagain⟩ := h.2.2
  exact ⟨hnew, hkeep, hgone, honce, hagain⟩

/-- C8: a window-addressed event whose id has no registry entry is logged
and dropped — the tables, channel closes and deliveries are untouched — and
a completion event with no pending entry likewise only logs; the loop (a
total step function: it cannot crash or exit) then still delivers subsequent
events for registered windows. -/
theorem unroutable_events_dropped (s : ScreenState) (xw seq : Nat)
    (hno : s.windows xw = none) (hup : s.uploads seq = none) :
    ((runStep s (.destroyNotify xw)).windows = s.windows ∧
     (runStep s (.destroyNotify xw)).closeCount = s.closeCount ∧
     (runStep s (.destroyNotify xw)).delivered = s.delivered ∧
     (runStep s (.destroyNotify xw)).log =
       s.log ++ ["x11driver: no window found for event"]) ∧
    ((runStep s (.completion seq)).uploads = s.uploads ∧
     (runStep s (.completion seq)).windows = s.windows ∧
     (runStep s (.completion seq)).delivered = s.delivered ∧
     (runStep s (.completion seq)).log =
       s.log ++ ["x11driver: no matching upload for a SHM completion event"]) ∧
    (∀ xw2 w2, s.windows xw2 = some w2 →
      (runStep (runStep s (.destroyNotify xw)) (.expose xw2)).delivered =
        s.delivered ++ [(w2.chanId, (XEvent.expose xw2).code)]) := by
  have hwin : (runStep s (.destroyNotify xw)).windows = s.windows := by
    simp only [runStep, dispatchWindowEvent, hno]
    funext k
    by_cases hk : k = xw <;> simp [mapErase, hk, hno]
  refine ⟨⟨hwin, ?_, ?_, ?_⟩, ⟨?_, ?_, ?_, ?_⟩, ?_⟩
  · simp [runStep, dispatchWindowEvent, hno]
  · simp [runStep, dispatchWindowEvent, hno]
  · simp [runStep, dispatchWindowEvent, hno]
  · simp [runStep, handleCompletion, hup]
  · simp [runStep, handleCompletion, hup]
  · simp [runStep, handleCompletion, hup]
  · simp [runStep, handleCompletion, hup]
  · intro xw2 w2 hw2
    have hw2s : (runStep s (.destroyNotify xw)).windows xw2 = some w2 := by
      rw [hwin]; exact hw2
    have hdel : (runStep s (.destroyNotify xw)).delivered = s.delivered := by
      simp [runStep, dispatchWindowEvent, hno]
    generalize hgen : runStep s (.destroyNotify xw) = s1 at hw2s hdel
    simp [runStep, dispatchWindowEvent, hw2s, hdel]

/-- C8 witness: in the one-window state, a destroy-notification for the
unregistered id 9 and a completion for the unmatched sequence 5 are logged
and dropped, and an expose for the registered id 3 is then still
delivered on channel 0. -/
theorem unroutable_events_dropped_witness :
    (runStep stWin3 (.destroyNotify 9)).windows 3 = some winW ∧
    (runStep stWin3 (.destroyNotify 9)).log =
      ["x11driver: no window found for event"] ∧
    (runStep stWin3 (.completion 5)).log =
      ["x11driver: no matching upload for a SHM completion event"] ∧
    (runStep (runStep stWin3 (.destroyNotify 9)) (.expose 3)).delivered =
      [(0, (XEvent.expose 3).code)] := by
  have h := unroutable_events_dropped stWin3 9 5 rfl rfl
  obtain ⟨⟨hwin, _, _, hlog⟩, ⟨_, _, _, hlog2⟩, hdeliver⟩ := h
  refine ⟨?_, ?_, ?_, ?_⟩
  · rw [hwin]; rfl
  · rw [hlog]; rfl
  · rw [hlog2]; rfl
  · have hd := hdeliver 3 winW rfl
    rw [hd]; rfl

end X11Driver
